import Mathlib

/-
Verification of the langgraph-cua-py agent core (hyperbrowser graph, model
invokers, action dispatcher, session manager) against its natural-language
specification.  The Python sources are shallowly embedded as executable Lean
definitions; dynamic dict/attribute shapes are made explicit as structures,
Python truthiness is modelled where the source branches on it, and raising
code is embedded as `Except`-valued functions.
-/

set_option autoImplicit false

namespace LangGraphCUA

/-! ### String constants of the source -/

def computerCallTy : String := "computer_call"

def computerCallOutputTy : String := "computer_call_output"

def toolTy : String := "tool"

def aiTy : String := "ai"

def humanTy : String := "human"

def systemTy : String := "system"

def reasoningTy : String := "reasoning"

def inputImageTy : String := "input_image"

def autoDetail : String := "auto"

def dataImagePng : String := "data:image/png;base64,"

def emptyText : String := ""

def errNoPrevResponse : String := "Cannot process tool message without a previous_response_id"

def errKeyErrorId : String := "KeyError: id"

def errNoApiKey : String := "Hyperbrowser API key not provided"

def errNoAction : String := "Cannot take computer action without a computer call or function call in the last message."

def errNotAiMessage : String := "Last message must be an AI message"

def errIndexError : String := "IndexError: list index out of range"

def errStrAppend : String := "AttributeError: str content has no append"

def errNonListToolOutputs : String := "TypeError: tool_outputs value is not a list"

def errUnknownProvider : String := "Unknown provider"

def goToUrlName : String := "go_to_url"

def getCurrentUrlName : String := "get_current_url"

def cid1 : String := "c1"

def cid2 : String := "f1"

def tokenT : String := "T123"

def shotB64 : String := "SHOT"

def liveConst : String := "https://live.example"

def wsConst : String := "wss://control.example"

def keyConst : String := "hb-key"

def newIdConst : String := "fresh-session"

def sidConst : String := "sess-42"

/-! ### Python truthiness helpers -/

/-- Truthiness of an optional string, as Python evaluates `if x:` for a
value that is either `None` or a `str` (empty string is falsy). -/
def pyTruthy : Option String → Bool
  | none => false
  | some s => !(s == emptyText)

/-! ### Data model: messages

Embeds the langchain message shapes the sources inspect: the `type` tag
(`"system" | "human" | "ai" | "tool"`), `content` (a `str` or a list of
content items), the `additional_kwargs` dict (here: its `tool_outputs` key
plus a flag recording whether any other key is present, which is what the
dict's truthiness depends on), `tool_calls`, and `response_metadata`
(an optional dict holding an optional `id` key; `hasattr` is modelled by
the outer option). -/

inductive ContentItem where
  | text (s : String)
  | input_image (image_url : String) (detail : Option String)
  deriving DecidableEq, Repr

inductive Content where
  | str (s : String)
  | items (l : List ContentItem)
  deriving DecidableEq, Repr

structure ToolOutput where
  type : Option String
  call_id : Option String
  action : String
  deriving DecidableEq, Repr

structure ToolCall where
  name : String
  args : String
  id : Option String
  deriving DecidableEq, Repr

/-- Value of `additional_kwargs.get("tool_outputs")`: the key may be absent,
hold a non-list value, or hold a list of tool outputs. -/
inductive ToolOutputsField where
  | absent
  | nonList
  | list (outs : List ToolOutput)
  deriving DecidableEq, Repr

structure AdditionalKwargs where
  tool_outputs : ToolOutputsField
  has_other_keys : Bool
  deriving DecidableEq, Repr

/-- Python truthiness of the `additional_kwargs` dict: non-empty iff the
`tool_outputs` key is present (whatever its value) or some other key is. -/
def AdditionalKwargs.truthy (kw : AdditionalKwargs) : Bool :=
  (match kw.tool_outputs with
   | ToolOutputsField.absent => false
   | _ => true) || kw.has_other_keys

structure RespMeta where
  id : Option String
  deriving DecidableEq, Repr

structure Message where
  type : String
  content : Content
  additional_kwargs : AdditionalKwargs
  tool_calls : List ToolCall
  response_metadata : Option RespMeta
  deriving DecidableEq, Repr

/-! ### Router (src/langgraph_cua/hyperbrowser/graph.py, src/langgraph_cua/hyperbrowser/utils.py) -/

/-- Embeds `is_computer_tool_call` applied to a value already known to be a
list (`utils.py` lines 98-111): false for an empty (falsy) list, otherwise
true iff every element's `type` is `"computer_call"`. -/
def is_computer_tool_call_list (outs : List ToolOutput) : Bool :=
  !outs.isEmpty && outs.all (fun o => o.type == some computerCallTy)

/-- Embeds `is_computer_tool_call(tool_outputs)` on the raw value of the
`tool_outputs` key: `None` (absent key) and non-list values yield false. -/
def is_computer_tool_call : ToolOutputsField → Bool
  | ToolOutputsField.absent => false
  | ToolOutputsField.nonList => false
  | ToolOutputsField.list outs => is_computer_tool_call_list outs

inductive Route where
  | take_browser_action
  | END
  deriving DecidableEq, Repr

/-- Embeds `take_action_or_end` (`graph.py` lines 8-35): END on an empty
conversation, END when the last message's `additional_kwargs` dict is falsy,
END when `is_computer_tool_call` fails on its `tool_outputs` and it has no
`tool_calls`; otherwise the action node. -/
def take_action_or_end (messages : List Message) : Route :=
  match messages.getLast? with
  | none => Route.END
  | some last =>
    if !last.additional_kwargs.truthy then Route.END
    else if !is_computer_tool_call last.additional_kwargs.tool_outputs && last.tool_calls.isEmpty then
      Route.END
    else Route.take_browser_action

/-- Embeds `reinvoke_model_or_end` (`graph.py` lines 38-53): back to the
model node iff the last message is a tool message. -/
def reinvoke_model_or_end (messages : List Message) : Bool :=
  match messages.getLast? with
  | none => false
  | some last => last.type == toolTy

/-- Claim-side predicate, written from the spec's words for claim C1: the
message carries at least one pending ActionRequest of either variant, i.e.
at least one `computer_call` tool output or at least one named function
call. -/
def hasPendingActionRequest (m : Message) : Bool :=
  (match m.additional_kwargs.tool_outputs with
   | ToolOutputsField.list outs => outs.any (fun o => o.type == some computerCallTy)
   | _ => false) || !m.tool_calls.isEmpty

/-! ### C1 fixtures -/

/-- Assistant message whose `tool_outputs` mix one `computer_call` with one
`reasoning` item, and with no `tool_calls`. -/
def mixedOutsMsg : Message :=
  ⟨aiTy, Content.str emptyText,
   ⟨ToolOutputsField.list
      [⟨some computerCallTy, some cid1, emptyText⟩,
       ⟨some reasoningTy, none, emptyText⟩], false⟩,
   [], none⟩

def navToolCall : ToolCall := ⟨goToUrlName, emptyText, some cid2⟩

/-- Assistant message with one named function call and an `additional_kwargs`
dict that is non-empty (as produced by the OpenAI adapter). -/
def fnCallMsg : Message :=
  ⟨aiTy, Content.str emptyText, ⟨ToolOutputsField.absent, true⟩, [navToolCall], none⟩

/-- C1 counterexample: the latest message is an Assistant message containing a
pending `computer_call` ActionRequest (alongside a `reasoning` item), yet the
router returns END, because `is_computer_tool_call` demands that every
element of `tool_outputs` be a `computer_call`. -/
theorem take_action_or_end_pending_not_sufficient :
    take_action_or_end [mixedOutsMsg] = Route.END ∧
    mixedOutsMsg.type = aiTy ∧
    hasPendingActionRequest mixedOutsMsg = true := by
  refine ⟨rfl, rfl, ?_⟩
  decide

/-- C1 (amended): the router sends an empty conversation to END, and routes a
non-empty conversation to the action node iff the last message's
`additional_kwargs` dict is non-empty and either its `tool_outputs` value is
a non-empty list consisting entirely of `computer_call` items or the message
has at least one named function call.  In particular an Assistant message
with zero pending ActionRequests still goes to END, but a `tool_outputs`
list mixing a `computer_call` with any other item type also goes to END. -/
theorem take_action_or_end_characterization :
    take_action_or_end [] = Route.END ∧
    ∀ (messages : List Message) (last : Message), messages.getLast? = some last →
      (take_action_or_end messages = Route.take_browser_action ↔
        (last.additional_kwargs.truthy = true ∧
          (is_computer_tool_call last.additional_kwargs.tool_outputs = true ∨
            last.tool_calls ≠ []))) := by
  refine ⟨rfl, ?_⟩
  intro messages last hlast
  unfold take_action_or_end
  rw [hlast]
  by_cases htr : last.additional_kwargs.truthy
  · by_cases hic : is_computer_tool_call last.additional_kwargs.tool_outputs
    · simp [htr, hic]
    · by_cases hcalls : last.tool_calls.isEmpty = true
      · simp [htr, hic, hcalls, List.isEmpty_iff.mp hcalls]
      · have hf : last.tool_calls.isEmpty = false := by
          revert hcalls
          cases last.tool_calls.isEmpty <;> simp
        have hne : last.tool_calls ≠ [] := by
          intro h
          rw [h] at hf
          simp at hf
        simp [htr, hic, hf, hne]
  · simp [htr]

/-- C1 witness: a concrete Assistant message with one named function call is
routed to the action node. -/
theorem take_action_or_end_characterization_witness :
    take_action_or_end [fnCallMsg] = Route.take_browser_action :=
  (take_action_or_end_characterization.2 [fnCallMsg] fnCallMsg rfl).mpr
    ⟨rfl, Or.inr (by decide)⟩

/-! ### Model invoker request construction
(src/langgraph_cua/nodes/call_model.py and
src/langgraph_cua/hyperbrowser/nodes/call_model.py)

`call_model` mixes provider I/O (the LLM call, session/Playwright setup)
with pure request construction.  The embedding captures the request
construction: which messages are passed to `ainvoke`, which
`previous_response_id` is bound into the model kwargs, and whether a
screenshot was appended to the first message's content.  Raising paths
(`ValueError`, a `KeyError` on a `response_metadata` dict without an
`"id"` key, an `IndexError` on `messages[0]` for an empty conversation,
an `AttributeError` when `.append` is called on `str` content) become
`Except.error`. -/

def secondLast? {α : Type} (l : List α) : Option α := l.dropLast.getLast?

/-- Embeds the subscript `response_metadata["id"]`: a missing key raises. -/
def lookupRespId (rm : RespMeta) : Except String String :=
  match rm.id with
  | some i => Except.ok i
  | none => Except.error errKeyErrorId

/-- Embeds lines 121-132 of `nodes/call_model.py` (Scrapybara variant): the
`previous_response_id` is resolved only when the last message is a tool
message and `zdr_enabled` is false, from the second-to-last message when it
is an AI message that has `response_metadata`. -/
def resolve_previous_response_id (zdr_enabled : Bool) (messages : List Message) :
    Except String (Option String) :=
  match messages.getLast? with
  | none => Except.ok none
  | some last =>
    if last.type == toolTy && !zdr_enabled then
      match secondLast? messages with
      | some m2 =>
        match m2.response_metadata with
        | some rm =>
          if m2.type == aiTy then (lookupRespId rm).map Option.some
          else Except.ok none
        | none => Except.ok none
      | none => Except.ok none
    else Except.ok none

/-- Shape of one model invocation: the message list passed to `ainvoke`, the
`previous_response_id` bound into the request, and whether a screenshot was
appended to the first message before sending. -/
structure ModelRequest where
  sent : List Message
  previous_response_id : Option String
  screenshot_attached : Bool
  deriving DecidableEq, Repr

/-- Embeds the request construction of `call_model`
(`nodes/call_model.py` lines 106-161, Scrapybara variant): a tool-message
tail with `zdr_enabled` false sends only the tool message and requires a
resolvable `previous_response_id`; every other case sends the whole
conversation, with the configured prompt prepended when present. -/
def call_model_request (zdr_enabled : Bool) (prompt : Option Message)
    (messages : List Message) : Except String ModelRequest :=
  match resolve_previous_response_id zdr_enabled messages with
  | Except.error e => Except.error e
  | Except.ok prev =>
    match messages.getLast? with
    | some last =>
      if last.type == toolTy && !zdr_enabled then
        if prev.isNone then Except.error errNoPrevResponse
        else Except.ok ⟨[last], prev, false⟩
      else
        match prompt with
        | none => Except.ok ⟨messages, prev, false⟩
        | some p => Except.ok ⟨p :: messages, prev, false⟩
    | none =>
      match prompt with
      | none => Except.ok ⟨messages, prev, false⟩
      | some p => Except.ok ⟨p :: messages, prev, false⟩

/-- Embeds lines 56-75 of `hyperbrowser/nodes/call_model.py`: like the
Scrapybara resolver but with no zero-data-retention switch, and with an
extra branch resolving the id from the last message itself when it is an
AI message. -/
def resolve_previous_response_id_hb (messages : List Message) :
    Except String (Option String) :=
  match messages.getLast? with
  | none => Except.ok none
  | some last =>
    if last.type == toolTy then
      match secondLast? messages with
      | some m2 =>
        match m2.response_metadata with
        | some rm =>
          if m2.type == aiTy then (lookupRespId rm).map Option.some
          else Except.ok none
        | none => Except.ok none
      | none => Except.ok none
    else
      match last.response_metadata with
      | some rm =>
        if last.type == aiTy then (lookupRespId rm).map Option.some
        else Except.ok none
      | none => Except.ok none

/-- Embeds line 131 of `hyperbrowser/nodes/call_model.py`:
`messages[0].content.append({"type": "input_image", ...})`.  Appending to a
`str` content raises `AttributeError`. -/
def attach_screenshot (screenshot_b64 : String) (m : Message) : Except String Message :=
  match m.content with
  | Content.str _ => Except.error errStrAppend
  | Content.items l =>
    let newContent := Content.items
      (l ++ [ContentItem.input_image (dataImagePng ++ screenshot_b64) (some autoDetail)])
    Except.ok { m with content := newContent }

/-- Embeds the request construction of the hyperbrowser `call_model`
(`hyperbrowser/nodes/call_model.py` lines 55-132): a tool-message tail sends
only the tool message and requires a `previous_response_id`; otherwise the
whole conversation is sent, and when no `previous_response_id` resolved, a
screenshot of the current page (given here as its base64 encoding) is first
appended to `messages[0]`'s content. -/
def call_model_hb_request (screenshot_b64 : String) (messages : List Message) :
    Except String ModelRequest :=
  match resolve_previous_response_id_hb messages with
  | Except.error e => Except.error e
  | Except.ok prev =>
    match messages.getLast? with
    | some last =>
      if last.type == toolTy then
        if prev.isNone then Except.error errNoPrevResponse
        else Except.ok ⟨[last], prev, false⟩
      else
        if prev.isNone then
          match messages with
          | [] => Except.error errIndexError
          | m0 :: rest =>
            match attach_screenshot screenshot_b64 m0 with
            | Except.error e => Except.error e
            | Except.ok m0s => Except.ok ⟨m0s :: rest, prev, true⟩
        else Except.ok ⟨messages, prev, false⟩
    | none => Except.error errIndexError

/-- A continuation token is resolvable from the second-to-last message:
it is an AI message whose `response_metadata` dict holds an `"id"` key. -/
def tokenResolvable (messages : List Message) : Bool :=
  match secondLast? messages with
  | some m2 =>
    m2.type == aiTy &&
      (match m2.response_metadata with
       | some rm => rm.id.isSome
       | none => false)
  | none => false

def exceptOk {ε α : Type} : Except ε α → Bool
  | Except.ok _ => true
  | Except.error _ => false

/-! ### C2 / C3 fixtures and theorems -/

/-- A lone tool (ActionResult) message, as produced by the action node. -/
def soloToolMsg : Message :=
  ⟨toolTy, Content.str emptyText, ⟨ToolOutputsField.absent, true⟩, [], none⟩

/-- An AI message whose `response_metadata` carries response id `T123`. -/
def tokAiMsg : Message :=
  ⟨aiTy, Content.str emptyText, ⟨ToolOutputsField.absent, true⟩, [], some ⟨some tokenT⟩⟩

/-- C2 counterexample: with continuity enabled (`zdr_enabled = False`), a
state whose latest message is an ActionResult but with no continuation token
available does not get the entire conversation sent: the invoker raises
instead. -/
theorem call_model_full_history_fallback_refuted :
    soloToolMsg.type = toolTy ∧
    tokenResolvable [soloToolMsg] = false ∧
    call_model_request false none [soloToolMsg] = Except.error errNoPrevResponse :=
  ⟨rfl, rfl, rfl⟩

/-- C2 (amended): when the latest message is an ActionResult, continuity is
enabled and the second-to-latest message is an AI message carrying a
response id, only the ActionResult message is sent together with that id;
when the latest message is not an ActionResult subject to continuity
(continuity disabled, or latest not a tool message, or empty conversation)
the entire conversation is sent (prompt prepended when configured); the
remaining case - latest is an ActionResult, continuity enabled, no token -
raises instead of sending anything. -/
theorem call_model_request_shape :
    ∀ (zdr : Bool) (prompt : Option Message) (messages : List Message),
      (∀ (last m2 : Message) (rm : RespMeta) (tok : String),
        messages.getLast? = some last → last.type = toolTy → zdr = false →
        secondLast? messages = some m2 → m2.type = aiTy →
        m2.response_metadata = some rm → rm.id = some tok →
        call_model_request zdr prompt messages = Except.ok ⟨[last], some tok, false⟩) ∧
      ((∀ last : Message, messages.getLast? = some last → ¬(last.type = toolTy ∧ zdr = false)) →
        call_model_request zdr prompt messages = Except.ok ⟨prompt.toList ++ messages, none, false⟩) := by
  intro zdr prompt messages
  constructor
  · intro last m2 rm tok hlast hty hzdr hsl hm2ty hm2rm hid
    subst hzdr
    have hres : resolve_previous_response_id false messages = Except.ok (some tok) := by
      unfold resolve_previous_response_id
      rw [hlast, hsl]
      simp [hty, hm2ty, hm2rm, lookupRespId, hid]
      rfl
    unfold call_model_request
    rw [hres, hlast]
    simp [hty]
  · intro hno
    have hcond : ∀ last : Message, messages.getLast? = some last →
        (last.type == toolTy && !zdr) = false := by
      intro last hlast
      cases hb : (last.type == toolTy) with
      | false => simp [hb]
      | true =>
        have hty : last.type = toolTy := by simpa using hb
        have hz : zdr = true := by
          cases zdr
          · exact absurd ⟨hty, rfl⟩ (hno last hlast)
          · rfl
        simp [hb, hz]
    have hres : resolve_previous_response_id zdr messages = Except.ok none := by
      unfold resolve_previous_response_id
      cases hl : messages.getLast? with
      | none => rfl
      | some last => simp [hcond last hl]
    unfold call_model_request
    rw [hres]
    cases hl : messages.getLast? with
    | none =>
      cases prompt <;> simp [Option.toList]
    | some last =>
      cases prompt <;> simp [Option.toList, hcond last hl]

/-- C2 witness: with continuity enabled, prior AI message carrying response
id `T123` and latest message its ActionResult, the invoker sends only the
ActionResult plus that id. -/
theorem call_model_request_shape_witness :
    call_model_request false none [tokAiMsg, soloToolMsg] =
      Except.ok ⟨[soloToolMsg], some tokenT, false⟩ :=
  (call_model_request_shape false none [tokAiMsg, soloToolMsg]).1
    soloToolMsg tokAiMsg ⟨some tokenT⟩ tokenT rfl rfl rfl rfl rfl rfl rfl

/-- When the last message is a tool message, the hyperbrowser resolver takes
exactly the branch the Scrapybara resolver takes with `zdr_enabled = False`. -/
theorem resolve_hb_eq_tool (messages : List Message) (last : Message)
    (h : messages.getLast? = some last) (hty : last.type = toolTy) :
    resolve_previous_response_id_hb messages = resolve_previous_response_id false messages := by
  unfold resolve_previous_response_id_hb resolve_previous_response_id
  rw [h]
  simp [hty]

/-- Shared shape of the resolver result when the last message is a tool
message and no token is resolvable: either the `KeyError` on a metadata
dict without an id, or no id at all. -/
theorem resolver_no_token (messages : List Message) (last : Message)
    (hlast : messages.getLast? = some last) (hty : last.type = toolTy)
    (hnt : tokenResolvable messages = false) :
    resolve_previous_response_id false messages = Except.error errKeyErrorId ∨
    resolve_previous_response_id false messages = Except.ok none := by
  unfold resolve_previous_response_id
  rw [hlast]
  cases hsl : secondLast? messages with
  | none => simp [hty]
  | some m2 =>
    unfold tokenResolvable at hnt
    rw [hsl] at hnt
    have hnt2 : (m2.type == aiTy &&
        (match m2.response_metadata with
         | some rm => rm.id.isSome
         | none => false)) = false := hnt
    cases hrm : m2.response_metadata with
    | none => simp [hty, hrm]
    | some rm =>
      rw [hrm] at hnt2
      have hnt3 : (m2.type == aiTy && rm.id.isSome) = false := hnt2
      cases hb : (m2.type == aiTy) with
      | false => simp [hty, hrm, hb]
      | true =>
        rw [hb] at hnt3
        simp at hnt3
        have hid : rm.id = none := by
          cases hi : rm.id with
          | none => rfl
          | some i =>
            rw [hi] at hnt3
            simp at hnt3
        have heq : m2.type = aiTy := by simpa using hb
        simp [hty, hrm, hb, heq, lookupRespId, hid]
        exact Or.inl rfl

/-- C3: in both model invokers, if the latest message is an ActionResult,
continuity is required, and no continuation token is resolvable from the
second-to-latest message, the invoker raises instead of constructing a
provider request. -/
theorem tool_continuation_requires_token :
    (∀ (prompt : Option Message) (messages : List Message) (last : Message),
      messages.getLast? = some last → last.type = toolTy →
      tokenResolvable messages = false →
      exceptOk (call_model_request false prompt messages) = false) ∧
    (∀ (b64 : String) (messages : List Message) (last : Message),
      messages.getLast? = some last → last.type = toolTy →
      tokenResolvable messages = false →
      exceptOk (call_model_hb_request b64 messages) = false) := by
  constructor
  · intro prompt messages last hlast hty hnt
    unfold call_model_request
    rcases resolver_no_token messages last hlast hty hnt with hres | hres
    · rw [hres]
      rfl
    · rw [hres, hlast]
      simp [hty, exceptOk]
  · intro b64 messages last hlast hty hnt
    unfold call_model_hb_request
    rw [resolve_hb_eq_tool messages last hlast hty]
    rcases resolver_no_token messages last hlast hty hnt with hres | hres
    · rw [hres]
      rfl
    · rw [hres, hlast]
      simp [hty, exceptOk]

/-- C3 witness: a conversation consisting of a single ActionResult message
makes both invokers fail. -/
theorem tool_continuation_requires_token_witness :
    exceptOk (call_model_request false none [soloToolMsg]) = false ∧
    exceptOk (call_model_hb_request shotB64 [soloToolMsg]) = false :=
  ⟨tool_continuation_requires_token.1 none [soloToolMsg] soloToolMsg rfl rfl rfl,
   tool_continuation_requires_token.2 shotB64 [soloToolMsg] soloToolMsg rfl rfl rfl⟩

/-! ### C6: first-invocation screenshot attachment (hyperbrowser call_model) -/

/-- C6: on a full-conversation send of the hyperbrowser invoker (latest
message not an ActionResult): when no `previous_response_id` resolved, the
screenshot is appended to the first message's content — which requires that
content to be list-shaped, a `str` content making the invoker fail — and
when a `previous_response_id` did resolve the conversation is sent unchanged
with no screenshot attached; moreover no request the invoker ever builds
with a `previous_response_id` carries a screenshot. -/
theorem hb_first_invocation_screenshot :
    (∀ (b64 : String) (m0 : Message) (rest : List Message) (last : Message),
      (m0 :: rest).getLast? = some last → ¬(last.type = toolTy) →
      ((resolve_previous_response_id_hb (m0 :: rest) = Except.ok none →
          (∀ m0s, attach_screenshot b64 m0 = Except.ok m0s →
            call_model_hb_request b64 (m0 :: rest) = Except.ok ⟨m0s :: rest, none, true⟩) ∧
          (∀ s, m0.content = Content.str s →
            exceptOk (call_model_hb_request b64 (m0 :: rest)) = false)) ∧
        (∀ tok, resolve_previous_response_id_hb (m0 :: rest) = Except.ok (some tok) →
          call_model_hb_request b64 (m0 :: rest) = Except.ok ⟨m0 :: rest, some tok, false⟩))) ∧
    (∀ (b64 : String) (messages : List Message) (req : ModelRequest),
      call_model_hb_request b64 messages = Except.ok req →
      req.screenshot_attached = true → req.previous_response_id = none) := by
  constructor
  · intro b64 m0 rest last hlast htool
    have hbne : (last.type == toolTy) = false := by
      cases hb : (last.type == toolTy) with
      | false => rfl
      | true => exact absurd (by simpa using hb) htool
    constructor
    · intro hres
      constructor
      · intro m0s hatt
        unfold call_model_hb_request
        rw [hres, hlast]
        simp [hbne, hatt]
      · intro s hs
        unfold call_model_hb_request
        rw [hres, hlast]
        simp [hbne]
        unfold attach_screenshot
        rw [hs]
        rfl
    · intro tok hres
      unfold call_model_hb_request
      rw [hres, hlast]
      simp [hbne]
  · intro b64 messages req hreq hatt
    unfold call_model_hb_request at hreq
    split at hreq
    · exact absurd hreq (by simp)
    · split at hreq
      · split at hreq
        · split at hreq
          · exact absurd hreq (by simp)
          · injection hreq with h
            rw [← h] at hatt
            simp at hatt
        · split at hreq
          · rename_i hprev
            split at hreq
            · exact absurd hreq (by simp)
            · split at hreq
              · exact absurd hreq (by simp)
              · injection hreq with h
                rw [← h]
                simpa using hprev
          · injection hreq with h
            rw [← h] at hatt
            simp at hatt
      · exact absurd hreq (by simp)

/-- First message of a fresh run: a human message with list-shaped content. -/
def humanMsg : Message :=
  ⟨humanTy, Content.items [], ⟨ToolOutputsField.absent, false⟩, [], none⟩

/-- The same message after the first-turn screenshot has been appended. -/
def humanShotMsg : Message :=
  ⟨humanTy, Content.items [ContentItem.input_image (dataImagePng ++ shotB64) (some autoDetail)],
   ⟨ToolOutputsField.absent, false⟩, [], none⟩

/-- C6 witness: the very first invocation on a single human message with
list content sends the conversation with the screenshot appended to it. -/
theorem hb_first_invocation_screenshot_witness :
    call_model_hb_request shotB64 [humanMsg] = Except.ok ⟨[humanShotMsg], none, true⟩ :=
  ((hb_first_invocation_screenshot.1 shotB64 humanMsg [] humanMsg rfl (by decide)).1 rfl).1
    humanShotMsg rfl

/-! ### Action dispatcher
(src/langgraph_cua/hyperbrowser/nodes/take_browser_action.py)

The dispatch loops call `handle_computer_call` and
`handle_function_tool_call`, defined in
`langgraph_cua/hyperbrowser/nodes/tools.py`, which is not among the
provided sources, and act on a live Playwright page.  Modelled from the
spec (§4.3, §6 Browser driver): they are abstracted into a driver over an
abstract world state `W` (browser, current page, remote page content),
where `execComputer` runs one pointer/keyboard action, `shot` yields the
base64 encoding of `page.screenshot()` in the current world, and
`execFunction` runs one named function call and returns its ToolMessage.
The `asyncio.sleep(1)` settle delays and the I/O boundaries are recorded
in an event trace so that dispatch order is observable. -/

/-- The ToolMessage value returned to the model: content items, the
`tool_call_id` correlating it to its request, and the `"type"` entry of its
`additional_kwargs`. -/
structure ToolMsg where
  content : List ContentItem
  tool_call_id : Option String
  kwargs_type : Option String
  deriving DecidableEq, Repr

structure Driver (W : Type) where
  execComputer : W → ToolOutput → W
  shot : W → String
  execFunction : W → ToolCall → W × ToolMsg

/-- Observable steps of one node execution, in execution order. -/
inductive Event where
  | emitStream (url : String)
  | execComputer (call_id : Option String)
  | settle
  | screenshot (call_id : Option String)
  | execFunction (name : String) (id : Option String)
  deriving DecidableEq, Repr

/-- The ToolMessage built for one `computer_call` output (lines 76-88 of
`take_browser_action.py`): a single `input_image` item holding the data-url
of the screenshot just captured, correlated by the output's `call_id`, with
`additional_kwargs = {"type": "computer_call_output"}`. -/
def computerResultMsg {W : Type} (d : Driver W) (w : W) (o : ToolOutput) : ToolMsg :=
  ⟨[ContentItem.input_image (dataImagePng ++ d.shot w) none], o.call_id, some computerCallOutputTy⟩

/-- Embeds the `for tool_output in tool_outputs` loop (lines 72-90): each
`computer_call` output is executed, then a settle delay, then a screenshot
whose message overwrites `tool_message`; an output of any other type is
only printed and leaves everything unchanged. -/
def run_outputs {W : Type} (d : Driver W) :
    List ToolOutput → W → Option ToolMsg → W × Option ToolMsg × List Event
  | [], w, m => (w, m, [])
  | o :: rest, w, m =>
    if o.type == some computerCallTy then
      let w2 := d.execComputer w o
      let r := run_outputs d rest w2 (some (computerResultMsg d w2 o))
      (r.1, r.2.1, Event.execComputer o.call_id :: Event.settle :: Event.screenshot o.call_id :: r.2.2)
    else
      run_outputs d rest w m

/-- Embeds the `for tool_call in tool_calls` loop (lines 92-94): each call
is dispatched and its resulting ToolMessage overwrites `tool_message`,
followed by a settle delay. -/
def run_calls {W : Type} (d : Driver W) :
    List ToolCall → W → Option ToolMsg → W × Option ToolMsg × List Event
  | [], w, m => (w, m, [])
  | c :: rest, w, _ =>
    let r0 := d.execFunction w c
    let r := run_calls d rest r0.1 (some r0.2)
    (r.1, r.2.1, Event.execFunction c.name c.id :: Event.settle :: r.2.2)

/-- Embeds the stream-url logic shared by both nodes
(`hyperbrowser/nodes/call_model.py` lines 109-116 and
`take_browser_action.py` lines 60-68): when the state's `stream_url` is
falsy, the session's `live_url` is stored and written to the stream writer
(the emission is the returned boolean); otherwise nothing is emitted. -/
def resolve_stream_url (live_url : String) (stream_url : Option String) :
    Option String × Bool :=
  if pyTruthy stream_url then (stream_url, false)
  else (some live_url, true)

/-- Embeds `message.additional_kwargs.get("tool_outputs", [])` (line 28):
an absent key defaults to the empty list.  A non-list value would be
iterated raw by Python; that degenerate shape is left unmodelled as an
error. -/
def extract_tool_outputs : ToolOutputsField → Except String (List ToolOutput)
  | ToolOutputsField.absent => Except.ok []
  | ToolOutputsField.nonList => Except.error errNonListToolOutputs
  | ToolOutputsField.list outs => Except.ok outs

/-- Result of one `take_browser_action` node execution: the final world,
the messages appended to the conversation (`tool_message if tool_message
else None`, so zero or one), the stored `stream_url`, and the event trace. -/
structure ActionOutcome (W : Type) where
  world : W
  new_messages : List ToolMsg
  stream_url : Option String
  events : List Event

/-- Embeds `take_browser_action` (`take_browser_action.py` lines 15-104):
the last-message-is-AI assertion, the no-action guard, the stream-url
emission, the two dispatch loops, and the aggregation of the final
`tool_message`.  Session/Playwright acquisition is abstracted into the
`live_url` argument and the driver's world. -/
def take_browser_action_core {W : Type} (d : Driver W) (live_url : String) (w : W)
    (stream_url : Option String) (m : Message) : Except String (ActionOutcome W) :=
  if !(m.type == aiTy) then Except.error errNotAiMessage
  else
    match extract_tool_outputs m.additional_kwargs.tool_outputs with
    | Except.error e => Except.error e
    | Except.ok tool_outputs =>
      if !is_computer_tool_call_list tool_outputs && m.tool_calls.isEmpty then
        Except.error errNoAction
      else
        let s := resolve_stream_url live_url stream_url
        let streamEvs := if s.2 then [Event.emitStream live_url] else []
        let r1 := run_outputs d tool_outputs w none
        let r2 := run_calls d m.tool_calls r1.1 r1.2.1
        Except.ok ⟨r2.1, r2.2.1.toList, s.1, streamEvs ++ r1.2.2 ++ r2.2.2⟩

/-- Test fixture: an Assistant message with the given tool outputs and
function calls. -/
def mkAiMsg (outs : List ToolOutput) (calls : List ToolCall) : Message :=
  ⟨aiTy, Content.str emptyText, ⟨ToolOutputsField.list outs, false⟩, calls, none⟩

def messagesOf {W : Type} (r : Except String (ActionOutcome W)) : Except String (List ToolMsg) :=
  Except.map ActionOutcome.new_messages r

def eventsOf {W : Type} (r : Except String (ActionOutcome W)) : Except String (List Event) :=
  Except.map ActionOutcome.events r

/-- Events of one tool output in the dispatch loop: a `computer_call` output
yields command, settle delay and screenshot; any other output yields
nothing. -/
def perOutputEvents (o : ToolOutput) : List Event :=
  if o.type == some computerCallTy then
    [Event.execComputer o.call_id, Event.settle, Event.screenshot o.call_id]
  else []

def eventsOfOutputs : List ToolOutput → List Event
  | [] => []
  | o :: rest => perOutputEvents o ++ eventsOfOutputs rest

def eventsOfCalls : List ToolCall → List Event
  | [] => []
  | c :: rest => Event.execFunction c.name c.id :: Event.settle :: eventsOfCalls rest

/-! ### Dispatch-loop lemmas -/

theorem run_outputs_append {W : Type} (d : Driver W) (l1 l2 : List ToolOutput)
    (w : W) (m : Option ToolMsg) :
    run_outputs d (l1 ++ l2) w m =
      ((run_outputs d l2 (run_outputs d l1 w m).1 (run_outputs d l1 w m).2.1).1,
       (run_outputs d l2 (run_outputs d l1 w m).1 (run_outputs d l1 w m).2.1).2.1,
       (run_outputs d l1 w m).2.2 ++
         (run_outputs d l2 (run_outputs d l1 w m).1 (run_outputs d l1 w m).2.1).2.2) := by
  induction l1 generalizing w m with
  | nil => simp [run_outputs]
  | cons o rest ih =>
    cases ho : (o.type == some computerCallTy) with
    | true => simp [run_outputs, ho, ih]
    | false => simp [run_outputs, ho, ih]

theorem run_calls_append {W : Type} (d : Driver W) (l1 l2 : List ToolCall)
    (w : W) (m : Option ToolMsg) :
    run_calls d (l1 ++ l2) w m =
      ((run_calls d l2 (run_calls d l1 w m).1 (run_calls d l1 w m).2.1).1,
       (run_calls d l2 (run_calls d l1 w m).1 (run_calls d l1 w m).2.1).2.1,
       (run_calls d l1 w m).2.2 ++
         (run_calls d l2 (run_calls d l1 w m).1 (run_calls d l1 w m).2.1).2.2) := by
  induction l1 generalizing w m with
  | nil => simp [run_calls]
  | cons c rest ih => simp [run_calls, ih]

/-- The world reached by the function-call loop does not depend on the
incoming `tool_message`. -/
theorem run_calls_world_irrel {W : Type} (d : Driver W) (l : List ToolCall)
    (w : W) (m m2 : Option ToolMsg) :
    (run_calls d l w m).1 = (run_calls d l w m2).1 := by
  cases l <;> rfl

theorem run_outputs_events {W : Type} (d : Driver W) (l : List ToolOutput)
    (w : W) (m : Option ToolMsg) :
    (run_outputs d l w m).2.2 = eventsOfOutputs l := by
  induction l generalizing w m with
  | nil => rfl
  | cons o rest ih =>
    cases ho : (o.type == some computerCallTy) with
    | true => simp [run_outputs, eventsOfOutputs, perOutputEvents, ho, ih]
    | false => simp [run_outputs, eventsOfOutputs, perOutputEvents, ho, ih]

theorem run_calls_events {W : Type} (d : Driver W) (l : List ToolCall)
    (w : W) (m : Option ToolMsg) :
    (run_calls d l w m).2.2 = eventsOfCalls l := by
  induction l generalizing w m with
  | nil => rfl
  | cons c rest ih => simp [run_calls, eventsOfCalls, ih]

/-- Unfolding of one node execution under the no-action guard. -/
theorem take_browser_action_core_eq {W : Type} (d : Driver W) (live : String)
    (w : W) (su : Option String) (outs : List ToolOutput) (calls : List ToolCall)
    (h : is_computer_tool_call_list outs = true ∨ calls ≠ []) :
    take_browser_action_core d live w su (mkAiMsg outs calls) =
      Except.ok ⟨(run_calls d calls (run_outputs d outs w none).1 (run_outputs d outs w none).2.1).1,
                 (run_calls d calls (run_outputs d outs w none).1 (run_outputs d outs w none).2.1).2.1.toList,
                 (resolve_stream_url live su).1,
                 (if (resolve_stream_url live su).2 then [Event.emitStream live] else []) ++
                   (run_outputs d outs w none).2.2 ++
                   (run_calls d calls (run_outputs d outs w none).1 (run_outputs d outs w none).2.1).2.2⟩ := by
  have hguard : (!is_computer_tool_call_list outs && calls.isEmpty) = false := by
    rcases h with h | h
    · simp [h]
    · have : calls.isEmpty = false := by
        cases hcc : calls.isEmpty with
        | false => rfl
        | true => exact absurd (List.isEmpty_iff.mp hcc) h
      simp [this]
  unfold take_browser_action_core mkAiMsg
  simp [extract_tool_outputs, hguard]

/-- C4: under the no-action guard the node appends at most one message, and
when the batch ends with a named function call (resp. consists of computer
calls only) the single appended ActionResult is exactly the result of that
last call (resp. the screenshot message of the last computer call),
discarding every earlier result. -/
theorem batch_result_keeps_last_action :
    ∀ {W : Type} (d : Driver W) (live : String) (w : W) (su : Option String)
      (outs : List ToolOutput) (calls : List ToolCall),
      (is_computer_tool_call_list outs = true ∨ calls ≠ []) →
      ((∀ res, take_browser_action_core d live w su (mkAiMsg outs calls) = Except.ok res →
          res.new_messages.length ≤ 1) ∧
       (∀ cs c, calls = cs ++ [c] →
          messagesOf (take_browser_action_core d live w su (mkAiMsg outs calls)) =
            Except.ok [(d.execFunction (run_calls d cs (run_outputs d outs w none).1 none).1 c).2]) ∧
       (∀ pre o, calls = [] → outs = pre ++ [o] →
          messagesOf (take_browser_action_core d live w su (mkAiMsg outs calls)) =
            Except.ok [computerResultMsg d (d.execComputer (run_outputs d pre w none).1 o) o])) := by
  intro W d live w su outs calls h
  refine ⟨?_, ?_, ?_⟩
  · intro res hres
    rw [take_browser_action_core_eq d live w su outs calls h] at hres
    injection hres with hres
    rw [← hres]
    cases (run_calls d calls (run_outputs d outs w none).1 (run_outputs d outs w none).2.1).2.1 <;>
      simp [Option.toList]
  · intro cs c hcalls
    subst hcalls
    rw [messagesOf, take_browser_action_core_eq d live w su outs (cs ++ [c]) h]
    rw [run_calls_append]
    simp [run_calls, Except.map]
    exact congrArg (fun x => (d.execFunction x c).2)
      (run_calls_world_irrel d cs (run_outputs d outs w none).1 (run_outputs d outs w none).2.1 none)
  · intro pre o hcalls houts
    subst hcalls
    subst houts
    have hall : is_computer_tool_call_list (pre ++ [o]) = true := by
      rcases h with h | h
      · exact h
      · exact absurd rfl h
    have ho : (o.type == some computerCallTy) = true := by
      simp [is_computer_tool_call_list] at hall
      simp [hall.2]
    rw [messagesOf, take_browser_action_core_eq d live w su (pre ++ [o]) [] (Or.inl hall)]
    rw [run_outputs_append]
    simp [run_calls, run_outputs, ho, Except.map]

/-- Driver fixture on `W = Nat`: each action bumps a step counter; the
screenshot names the counter; a function call returns a message correlated
to its call id. -/
def demoDriver : Driver Nat :=
  ⟨fun w _ => w + 1, fun w => toString w, fun w c => (w + 1, ⟨[], c.id, none⟩)⟩

def ccOut1 : ToolOutput := ⟨some computerCallTy, some cid1, emptyText⟩

/-- C4 witness: a batch of one computer call followed by one function call
keeps the function call's message. -/
theorem batch_result_keeps_last_action_witness :
    (messagesOf (take_browser_action_core demoDriver liveConst 0 none
        (mkAiMsg [ccOut1] [navToolCall])) =
      Except.ok [(demoDriver.execFunction
        (run_calls demoDriver [] (run_outputs demoDriver [ccOut1] 0 none).1 none).1 navToolCall).2]) ∧
    (messagesOf (take_browser_action_core demoDriver liveConst 0 none
        (mkAiMsg [ccOut1] [])) =
      Except.ok [computerResultMsg demoDriver
        (demoDriver.execComputer (run_outputs demoDriver [] 0 none).1 ccOut1) ccOut1]) :=
  ⟨(batch_result_keeps_last_action demoDriver liveConst 0 none [ccOut1] [navToolCall]
      (Or.inl (by decide))).2.1 [] navToolCall rfl,
   (batch_result_keeps_last_action demoDriver liveConst 0 none [ccOut1] []
      (Or.inl (by decide))).2.2 [] ccOut1 rfl rfl⟩

/-- C5: the events of one node execution are exactly the concatenation, in
source order, of the per-action blocks — for each `computer_call` output
its command, settle delay and screenshot, then for each function call its
dispatch and settle delay — so no action starts before the previous one
has fully completed, and the blocks are never reordered or interleaved. -/
theorem batch_dispatch_in_order :
    ∀ {W : Type} (d : Driver W) (live : String) (w : W) (su : Option String)
      (outs : List ToolOutput) (calls : List ToolCall),
      (is_computer_tool_call_list outs = true ∨ calls ≠ []) →
      eventsOf (take_browser_action_core d live w su (mkAiMsg outs calls)) =
        Except.ok ((if (resolve_stream_url live su).2 then [Event.emitStream live] else []) ++
          eventsOfOutputs outs ++ eventsOfCalls calls) := by
  intro W d live w su outs calls h
  rw [eventsOf, take_browser_action_core_eq d live w su outs calls h]
  simp [run_outputs_events, run_calls_events, Except.map]

/-- C5 witness: concrete trace of a computer call followed by a function
call. -/
theorem batch_dispatch_in_order_witness :
    eventsOf (take_browser_action_core demoDriver liveConst 0 none
        (mkAiMsg [ccOut1] [navToolCall])) =
      Except.ok ((if (resolve_stream_url liveConst none).2 then [Event.emitStream liveConst] else []) ++
        eventsOfOutputs [ccOut1] ++ eventsOfCalls [navToolCall]) :=
  batch_dispatch_in_order demoDriver liveConst 0 none [ccOut1] [navToolCall] (Or.inl (by decide))

/-! ### C9: unrecognized action handling -/

def unknownOut : ToolOutput := ⟨some reasoningTy, some cid1, emptyText⟩

/-- C9 counterexample: a batch holding a tool output of unrecognized type
(call id `c1`) next to a function call executes the rest of the batch but
produces no error result at all for `c1` — the unrecognized output is
silently skipped and the only message returned correlates to the function
call. -/
theorem unrecognized_type_no_error_result :
    take_browser_action_core demoDriver liveConst 0 none (mkAiMsg [unknownOut] [navToolCall]) =
      Except.ok ⟨1, [⟨[], some cid2, none⟩], some liveConst,
        [Event.emitStream liveConst, Event.execFunction goToUrlName (some cid2), Event.settle]⟩ ∧
    unknownOut.type ≠ some computerCallTy ∧ cid2 ≠ cid1 := by
  refine ⟨rfl, by decide, by decide⟩

/-- C9 (amended): an output of unrecognized type neither aborts the batch
nor leaves any trace in it: the node behaves exactly as if the output were
not present, so the remaining actions still execute but no error result
correlated to the unrecognized call is produced.  (A batch consisting only
of unrecognized outputs, with no function calls, instead fails the
no-action guard.) -/
theorem unknown_output_type_skipped :
    ∀ {W : Type} (d : Driver W) (live : String) (w : W) (su : Option String)
      (pre post : List ToolOutput) (o : ToolOutput) (calls : List ToolCall),
      ¬(o.type = some computerCallTy) → calls ≠ [] →
      take_browser_action_core d live w su (mkAiMsg (pre ++ o :: post) calls) =
        take_browser_action_core d live w su (mkAiMsg (pre ++ post) calls) := by
  intro W d live w su pre post o calls ho hc
  have hoB : (o.type == some computerCallTy) = false := by
    cases hb : (o.type == some computerCallTy) with
    | false => rfl
    | true => exact absurd (by simpa using hb) ho
  have hce : calls.isEmpty = false := by
    cases hcc : calls.isEmpty with
    | false => rfl
    | true => exact absurd (List.isEmpty_iff.mp hcc) hc
  have hro : ∀ (w2 : W) (m : Option ToolMsg),
      run_outputs d (pre ++ o :: post) w2 m = run_outputs d (pre ++ post) w2 m := by
    intro w2 m
    induction pre generalizing w2 m with
    | nil => simp [run_outputs, hoB]
    | cons p rest ih =>
      cases hp : (p.type == some computerCallTy) with
      | true => simp [run_outputs, hp, ih]
      | false => simp [run_outputs, hp, ih]
  unfold take_browser_action_core mkAiMsg
  simp [extract_tool_outputs, hce, hro]

/-- C9 amended-claim witness: dropping the unrecognized output from the
concrete batch leaves the node's behavior unchanged. -/
theorem unknown_output_type_skipped_witness :
    take_browser_action_core demoDriver liveConst 0 none (mkAiMsg [unknownOut] [navToolCall]) =
      take_browser_action_core demoDriver liveConst 0 none (mkAiMsg [] [navToolCall]) :=
  unknown_output_type_skipped demoDriver liveConst 0 none [] [] unknownOut [navToolCall]
    (by decide) (by decide)

/-! ### C8: stream-url side-channel emission across a run

Both nodes run the same `resolve_stream_url` logic and thread the stored
`stream_url` back into the state they return, so a run of the graph is,
for the purposes of the side channel, a sequence of `resolve_stream_url`
steps each consuming the previous step's stored value.  `runStream`
counts the emissions such a run performs over `n` node executions. -/

def runStream (live_url : String) : Nat → Option String → Nat
  | 0, _ => 0
  | n + 1, su =>
    (if (resolve_stream_url live_url su).2 then 1 else 0) +
      runStream live_url n (resolve_stream_url live_url su).1

/-- A step whose incoming `stream_url` is truthy never emits. -/
theorem runStream_truthy_zero (live : String) (n : Nat) (su : Option String)
    (h : pyTruthy su = true) : runStream live n su = 0 := by
  induction n with
  | zero => rfl
  | succ k ih =>
    unfold runStream resolve_stream_url
    rw [h]
    simpa [h] using ih

/-- C8 counterexample: when the session's live url is the empty string, a
two-step run emits twice — the guard is Python truthiness of the stored
`stream_url`, so the falsy stored value (which is populated: the first step
stored it) is re-emitted on every later step. -/
theorem stream_url_reemitted_when_falsy :
    runStream emptyText 2 none = 2 ∧
    (resolve_stream_url emptyText none).1 = some emptyText ∧
    (resolve_stream_url emptyText (some emptyText)).2 = true := by
  refine ⟨rfl, rfl, rfl⟩

/-- The dispatch loops themselves never produce a stream emission event. -/
theorem emitStream_not_in_outputs (u : String) (l : List ToolOutput) :
    Event.emitStream u ∉ eventsOfOutputs l := by
  induction l with
  | nil => simp [eventsOfOutputs]
  | cons o rest ih =>
    unfold eventsOfOutputs perOutputEvents
    cases hb : (o.type == some computerCallTy) with
    | true => simp [ih]
    | false => simp [ih]

theorem emitStream_not_in_calls (u : String) (l : List ToolCall) :
    Event.emitStream u ∉ eventsOfCalls l := by
  induction l with
  | nil => simp [eventsOfCalls]
  | cons c rest ih => simp [eventsOfCalls, ih]

/-- C8 (amended): provided the session's live url is non-empty (truthy), a
run of any positive number of node executions starting with no stored
`stream_url` emits it exactly once; a node whose state already carries a
truthy `stream_url` never emits; and within one action-node execution the
emission event, when present, precedes every action event.  When the live
url is the empty string the guard fails and the value is re-emitted on
every node execution. -/
theorem stream_url_emitted_once :
    (∀ (live : String), live ≠ emptyText → ∀ n : Nat, 1 ≤ n →
      runStream live n none = 1) ∧
    (∀ (live : String) (su : Option String), pyTruthy su = true →
      (resolve_stream_url live su).2 = false) ∧
    (∀ {W : Type} (d : Driver W) (live : String) (w : W) (su : Option String)
       (outs : List ToolOutput) (calls : List ToolCall),
      (is_computer_tool_call_list outs = true ∨ calls ≠ []) →
      ∀ res, take_browser_action_core d live w su (mkAiMsg outs calls) = Except.ok res →
        ∃ evs, res.events =
            (if (resolve_stream_url live su).2 then [Event.emitStream live] else []) ++ evs ∧
          ∀ u, Event.emitStream u ∉ evs) := by
  refine ⟨?_, ?_, ?_⟩
  · intro live hlive n hn
    cases n with
    | zero => exact absurd hn (by simp)
    | succ k =>
      have htr : pyTruthy (some live) = true := by
        simp [pyTruthy]
        intro h
        exact absurd h hlive
      unfold runStream resolve_stream_url
      simp [pyTruthy, runStream_truthy_zero live k (some live) htr]
  · intro live su h
    unfold resolve_stream_url
    rw [h]
    simp
  · intro W d live w su outs calls h res hres
    rw [take_browser_action_core_eq d live w su outs calls h] at hres
    injection hres with hres
    refine ⟨(run_outputs d outs w none).2.2 ++
      (run_calls d calls (run_outputs d outs w none).1 (run_outputs d outs w none).2.1).2.2, ?_, ?_⟩
    · rw [← hres]
      simp
    · intro u hu
      rw [run_outputs_events, run_calls_events] at hu
      rcases List.mem_append.mp hu with hu | hu
      · exact emitStream_not_in_outputs u outs hu
      · exact emitStream_not_in_calls u calls hu

/-- C8 amended-claim witness: with a non-empty live url a three-step run
emits exactly once. -/
theorem stream_url_emitted_once_witness :
    runStream liveConst 3 none = 1 ∧
    (resolve_stream_url liveConst (some liveConst)).2 = false :=
  ⟨stream_url_emitted_once.1 liveConst (by decide) 3 (by decide),
   stream_url_emitted_once.2.1 liveConst (some liveConst) (by decide)⟩

/-! ### Session manager (src/langgraph_cua/hyperbrowser/utils.py) -/

structure ScreenConfig where
  width : Nat
  height : Nat
  deriving DecidableEq, Repr

structure CreateSessionParams where
  solve_captchas : Bool
  screen : ScreenConfig
  deriving DecidableEq, Repr

structure SessionDetail where
  id : String
  ws_endpoint : String
  live_url : String
  deriving DecidableEq, Repr

/-- Modelled from the spec (§6 Session provider): the Hyperbrowser client's
`sessions` API is an external collaborator; `get` resumes an existing
session by id, `create` provisions a new one. -/
structure SessionsClient where
  get : String → SessionDetail
  create : CreateSessionParams → SessionDetail

def DEFAULT_DISPLAY_WIDTH : Nat := 1024

def DEFAULT_DISPLAY_HEIGHT : Nat := 800

/-- Embeds `init_or_load` (`hyperbrowser/utils.py` lines 34-72): fails
without an API key; resumes by `session_id` when one is present (and
truthy); otherwise creates a new session with captcha solving enabled at
the fixed display resolution. -/
def init_or_load (sessions : SessionsClient) (session_id : Option String)
    (hyperbrowser_api_key : Option String) : Except String SessionDetail :=
  if !pyTruthy hyperbrowser_api_key then Except.error errNoApiKey
  else if pyTruthy session_id then Except.ok (sessions.get (session_id.getD emptyText))
  else Except.ok (sessions.create ⟨true, ⟨DEFAULT_DISPLAY_WIDTH, DEFAULT_DISPLAY_HEIGHT⟩⟩)

/-- C7: given the provider contract of §6 (`resume(id)` returns the session
with that id), the acquire path is idempotent: with a known (truthy)
session id it resumes and yields the identical id and never calls `create`;
`create` — with captcha solving enabled and the fixed 1024x800 resolution —
is called only when no session id is known; and after a first acquisition
created a session, re-acquiring with its id resumes that same session. -/
theorem init_or_load_idempotent :
    ∀ (client : SessionsClient) (key : Option String),
      (∀ i, (client.get i).id = i) → pyTruthy key = true →
      ((∀ s, s ≠ emptyText →
          init_or_load client (some s) key = Except.ok (client.get s) ∧
          ∃ sess, init_or_load client (some s) key = Except.ok sess ∧ sess.id = s) ∧
       (∀ sid, pyTruthy sid = false →
          init_or_load client sid key =
            Except.ok (client.create ⟨true, ⟨DEFAULT_DISPLAY_WIDTH, DEFAULT_DISPLAY_HEIGHT⟩⟩)) ∧
       (∀ sess, init_or_load client none key = Except.ok sess → sess.id ≠ emptyText →
          init_or_load client (some sess.id) key = Except.ok (client.get sess.id) ∧
          (client.get sess.id).id = sess.id)) := by
  intro client key hget hkey
  have hkeyT : (!pyTruthy key) = false := by rw [hkey]; rfl
  refine ⟨?_, ?_, ?_⟩
  · intro s hs
    have hsT : pyTruthy (some s) = true := by
      simp [pyTruthy]
      intro h
      exact absurd h hs
    constructor
    · unfold init_or_load
      rw [hkeyT, hsT]
      simp [Option.getD]
    · refine ⟨client.get s, ?_, hget s⟩
      unfold init_or_load
      rw [hkeyT, hsT]
      simp [Option.getD]
  · intro sid hsid
    unfold init_or_load
    rw [hkeyT, hsid]
    rfl
  · intro sess hsess hne
    have hsT : pyTruthy (some sess.id) = true := by
      simp [pyTruthy]
      intro h
      exact absurd h hne
    constructor
    · unfold init_or_load
      rw [hkeyT, hsT]
      simp [Option.getD]
    · exact hget sess.id

/-- Client fixture: resuming returns a session with the queried id. -/
def demoClient : SessionsClient :=
  ⟨fun i => ⟨i, wsConst, liveConst⟩, fun _ => ⟨newIdConst, wsConst, liveConst⟩⟩

/-- C7 witness: resuming a populated session id yields the identical id,
and with no id the fixed creation parameters are used. -/
theorem init_or_load_idempotent_witness :
    init_or_load demoClient (some sidConst) (some keyConst) =
      Except.ok (demoClient.get sidConst) ∧
    init_or_load demoClient none (some keyConst) =
      Except.ok (demoClient.create ⟨true, ⟨DEFAULT_DISPLAY_WIDTH, DEFAULT_DISPLAY_HEIGHT⟩⟩) :=
  ⟨((init_or_load_idempotent demoClient (some keyConst) (fun _ => rfl) (by decide)).1
      sidConst (by decide)).1,
   (init_or_load_idempotent demoClient (some keyConst) (fun _ => rfl) (by decide)).2.1
      none (by decide)⟩

/-! ### Scrapybara tool schema (src/langgraph_cua/nodes/call_model.py) -/

def webEnv : String := "web"

def ubuntuEnv : String := "ubuntu"

def windowsEnv : String := "windows"

def browserEnv : String := "browser"

def macosEnv : String := "macos"

def DEFAULT_DISPLAY_WIDTH_SB : Nat := 1024

def DEFAULT_DISPLAY_HEIGHT_SB : Nat := 768

/-- Embeds `get_openai_env_from_state_env` (`nodes/call_model.py` lines
10-28): three `if/elif` branches with no `else`, so any other input falls
off the end of the function and Python returns `None`. -/
def get_openai_env_from_state_env (env : String) : Option String :=
  if env == webEnv then some browserEnv
  else if env == ubuntuEnv then some ubuntuEnv
  else if env == windowsEnv then some windowsEnv
  else none

inductive Provider where
  | scrapybara
  | hyperbrowser
  deriving DecidableEq, Repr

inductive Tool where
  | computer_use_preview (display_width : Nat) (display_height : Nat) (environment : Option String)
  | function (name : String)
  deriving DecidableEq, Repr

/-- Embeds `get_available_tools` (`nodes/call_model.py` lines 36-95).  The
nested `session_params`/`screen` dict lookups of the hyperbrowser branch
are condensed into the already-resolved optional screen size; the
Scrapybara branch is verbatim. -/
def get_available_tools (provider : Option Provider) (environment : String)
    (session_params_screen : Option (Nat × Nat)) : Except String (List Tool) :=
  match provider with
  | some Provider.scrapybara =>
    Except.ok [Tool.computer_use_preview DEFAULT_DISPLAY_WIDTH_SB DEFAULT_DISPLAY_HEIGHT_SB
      (get_openai_env_from_state_env environment)]
  | some Provider.hyperbrowser =>
    let screen := session_params_screen.getD (DEFAULT_DISPLAY_WIDTH_SB, DEFAULT_DISPLAY_HEIGHT_SB)
    Except.ok [Tool.computer_use_preview screen.1 screen.2 (some browserEnv),
      Tool.function goToUrlName, Tool.function getCurrentUrlName]
  | none => Except.error errUnknownProvider

/-- C10: for every environment string other than `"web"`, `"ubuntu"` and
`"windows"`, `get_openai_env_from_state_env` returns `None` instead of
raising the `ValueError` its docstring announces, and the Scrapybara tool
schema built from it carries `environment = None`. -/
theorem get_openai_env_falls_through :
    ∀ (env : String) (sp : Option (Nat × Nat)),
      env ≠ webEnv → env ≠ ubuntuEnv → env ≠ windowsEnv →
      get_openai_env_from_state_env env = none ∧
      get_available_tools (some Provider.scrapybara) env sp =
        Except.ok [Tool.computer_use_preview DEFAULT_DISPLAY_WIDTH_SB
          DEFAULT_DISPLAY_HEIGHT_SB none] := by
  intro env sp hw hu hn
  have henv : get_openai_env_from_state_env env = none := by
    unfold get_openai_env_from_state_env
    simp [hw, hu, hn]
  exact ⟨henv, by unfold get_available_tools; rw [henv]⟩

/-- C10 witness: the environment string `"macos"` yields a schema whose
`environment` field is `None`. -/
theorem get_openai_env_falls_through_witness :
    get_openai_env_from_state_env macosEnv = none ∧
    get_available_tools (some Provider.scrapybara) macosEnv none =
      Except.ok [Tool.computer_use_preview DEFAULT_DISPLAY_WIDTH_SB
        DEFAULT_DISPLAY_HEIGHT_SB none] :=
  get_openai_env_falls_through macosEnv none (by decide) (by decide) (by decide)

end LangGraphCUA
